import Mathlib

set_option maxHeartbeats 1000000

/-
Verification of the natural-language specification of
src/services/web/container_log_service.py (DockerDiscordControl demo repo)
against a shallow embedding of that file.

Modelling conventions:
* External effects are oracles collected in an `Env` record: the filesystem
  (`fsExists`, `fsRead`), the Docker engine reached through the synchronous
  SDK path (`engineSync`) and through the async SERVICE-FIRST path
  (`engineAsync`), availability of the pooled Docker client
  (`clientAvailable`), whether the calling thread has a running asyncio event
  loop (`hasEventLoop`), the DDC_OWN_CONTAINER_NAME environment variable
  (`ownContainerEnv`) and whether `utils.common_helpers` can be imported
  (`helpersImportOk`).
* Python exceptions are modelled by `Except PyExn`; the specific
  `except (...)` class tuples of the source become Boolean catch predicates.
* Every file read and every engine query is recorded in a trace of `Event`s,
  so that "performs no I/O" style statements can be made about the code.
-/

/-- Characters removed by Python str.strip() (ASCII whitespace). -/
def isPySpace (c : Char) : Bool :=
  c = ' ' || c = '\t' || c = '\n' || c = '\r' || c = '\x0b' || c = '\x0c'

/-- Python str.strip(). -/
def pyStrip (s : String) : String :=
  String.mk (((s.toList.dropWhile isPySpace).reverse.dropWhile isPySpace).reverse)

/-- Python str.lower() (ASCII part, which is all the source's patterns use). -/
def pyLower (s : String) : String :=
  String.mk (s.toList.map Char.toLower)

/-- Python str.capitalize(): first character upper-cased, the rest lower-cased. -/
def pyCapitalize (s : String) : String :=
  match s.toList with
  | [] => ""
  | c :: rest => String.mk (c.toUpper :: rest.map Char.toLower)

/-- Python list slice xs[-n:].  Note that for n = 0 this is the whole list
(`xs[-0:] = xs[0:]`), not the empty list. -/
def pySliceLast {α : Type} (xs : List α) (n : Nat) : List α :=
  if n = 0 then xs else xs.drop (xs.length - n)

/-- Python "\n".join(xs). -/
def pyJoinNl : List String → String
  | [] => ""
  | [s] => s
  | s :: rest => s ++ "\n" ++ pyJoinNl rest

def pySplitNlAux : List Char → List Char → List String
  | [], acc => [String.mk acc.reverse]
  | c :: rest, acc =>
    if c = '\n' then String.mk acc.reverse :: pySplitNlAux rest []
    else pySplitNlAux rest (c :: acc)

/-- Python s.split("\n"): splits at every newline; never returns the empty
list (the empty string splits to [""]). -/
def pySplitNl (s : String) : List String :=
  pySplitNlAux s.toList []

def strInAux (p : List Char) : List Char → Bool
  | [] => decide (p = [])
  | c :: rest => p.isPrefixOf (c :: rest) || strInAux p rest

/-- Python `pat in s` for strings: substring containment. -/
def strIn (pat s : String) : Bool :=
  strInAux pat.toList s.toList

/-- The character class of the validation regex [a-zA-Z0-9_.-]. -/
def allowedChar (c : Char) : Bool :=
  c.isAlpha || c.isDigit || c = '_' || c = '.' || c = '-'

/-- Python bool(re.match(r'^[a-zA-Z0-9_.-]+$', s)), line 290 of the source.
In Python, `$` matches at the end of the string or just before a newline at
the end of the string, so `s = run` and `s = run ++ "\n"` both match when
`run` is a non-empty run of allowed characters. -/
def pyRegexValidate (s : String) : Bool :=
  let cs := s.toList
  let core := if cs.getLast? = some '\n' then cs.dropLast else cs
  !core.isEmpty && core.all allowedChar

/-- Modelled from the spec: `utils.common_helpers.validate_container_name` is
imported at line 285 but is not under src/; the spec describes it as "a
name-validation predicate (alphanumeric, dot, dash, underscore only)". -/
def spec_validate_container_name (s : String) : Bool :=
  !s.toList.isEmpty && s.toList.all allowedChar

/-- Python exception classes relevant to the source's except-clauses.
`unicodeDecodeError` is a subclass of ValueError; `osError` stands for the
IOError/OSError/PermissionError/ConnectionError family (transport errors);
`keyError` stands for any exception class not otherwise listed. -/
inductive PyExn where
  | importError
  | attributeError
  | typeError
  | valueError
  | unicodeDecodeError
  | runtimeError
  | osError
  | keyError
deriving DecidableEq, Repr

/-- Classes caught at line 357 in `_get_container_logs_service_first`:
(AttributeError, TypeError, RuntimeError).  An APIError is converted to a
RuntimeError at line 339 and therefore also ends up caught here. -/
def catchesServiceFirst : PyExn → Bool
  | .attributeError | .typeError | .runtimeError => true
  | _ => false

/-- Classes caught at line 168 in `get_container_logs`:
(ImportError, AttributeError, TypeError, ValueError, RuntimeError);
UnicodeDecodeError is a ValueError subclass so it is caught too. -/
def catchesContainerTop : PyExn → Bool
  | .importError | .attributeError | .typeError | .valueError
  | .unicodeDecodeError | .runtimeError => true
  | _ => false

/-- Classes caught at line 466 in `_get_filtered_container_logs`:
(AttributeError, TypeError, RuntimeError, ValueError). -/
def catchesFilteredInner : PyExn → Bool
  | .attributeError | .typeError | .runtimeError
  | .valueError | .unicodeDecodeError => true
  | _ => false

/-- Classes caught at line 212 in `get_filtered_logs`:
(AttributeError, TypeError, ValueError, RuntimeError). -/
def catchesFilteredTop : PyExn → Bool
  | .attributeError | .typeError | .valueError
  | .unicodeDecodeError | .runtimeError => true
  | _ => false

/-- One engine interaction (`client.containers.get` + `container.logs` +
decode): either the decoded log text, a docker.errors.NotFound, a
docker.errors.APIError, or any other raised exception. -/
inductive FetchOutcome where
  | logs (content : String)
  | notFound
  | apiError
  | exn (e : PyExn)
deriving DecidableEq, Repr

/-- Instrumentation: external accesses performed by the service. -/
inductive Event where
  | fsRead (path : String)
  | engineSyncQuery (name : String) (tail : Nat)
  | engineAsyncQuery (name : String) (tail : Nat)
deriving DecidableEq, Repr

def Event.isEngineQuery : Event → Bool
  | .fsRead _ => false
  | .engineSyncQuery _ _ => true
  | .engineAsyncQuery _ _ => true

/-- The external world as seen by ContainerLogService.  `fsRead p` is the
`readlines()` result for path p (each element one physical line, trailing
newline included), or none when opening/reading raises one of the
file-error classes caught at line 483. -/
structure Env where
  fsExists : String → Bool
  fsRead : String → Option (List String)
  engineSync : String → Nat → FetchOutcome
  engineAsync : String → Nat → FetchOutcome
  clientAvailable : Bool
  hasEventLoop : Bool
  ownContainerEnv : Option String
  helpersImportOk : Bool

/-- `self.default_container`: os.environ.get('DDC_OWN_CONTAINER_NAME', 'ddc'). -/
def defaultContainer (env : Env) : String :=
  env.ownContainerEnv.getD "ddc"

/-- `_validate_container_name` (lines 282-290): the imported helper when
available, else the fallback regex. -/
def validate_container_name (env : Env) (container_name : String) : Bool :=
  if env.helpersImportOk then spec_validate_container_name container_name
  else pyRegexValidate container_name

/-- LogType enum (lines 25-32). -/
inductive LogType where
  | container
  | bot
  | discord
  | webui
  | application
  | action
deriving DecidableEq, Repr

/-- The .value attribute of each LogType member. -/
def LogType.value : LogType → String
  | .container => "container"
  | .bot => "bot"
  | .discord => "discord"
  | .webui => "webui"
  | .application => "application"
  | .action => "action"

/-- Python str() of a LogType member, as an f-string interpolates it. -/
def LogType.pyStr : LogType → String
  | .container => "LogType.CONTAINER"
  | .bot => "LogType.BOT"
  | .discord => "LogType.DISCORD"
  | .webui => "LogType.WEBUI"
  | .application => "LogType.APPLICATION"
  | .action => "LogType.ACTION"

structure ContainerLogRequest where
  container_name : String
  max_lines : Nat := 500
deriving DecidableEq, Repr

structure FilteredLogRequest where
  log_type : LogType
  max_lines : Nat := 500
deriving DecidableEq, Repr

structure ClearLogRequest where
  log_type : String := "container"
deriving DecidableEq, Repr

/-- The dict payload placed in LogResult.data by clear_logs. -/
structure ClearData where
  success : Bool
  message : String
deriving DecidableEq, Repr

/-- LogResult dataclass (lines 62-69). -/
structure LogResult where
  success : Bool
  content : Option String := none
  data : Option ClearData := none
  error : Option String := none
  status_code : Nat := 200
deriving DecidableEq, Repr

/- self.log_paths (lines 81-88), in dict insertion order. -/

def botLogPaths : List String :=
  ["/app/logs/bot.log", "/Volumes/appdata/dockerdiscordcontrol/logs/bot.log"]

def discordLogPaths : List String :=
  ["/app/logs/discord.log", "/Volumes/appdata/dockerdiscordcontrol/logs/discord.log"]

def webuiLogPaths : List String :=
  ["/app/logs/webui_error.log", "/Volumes/appdata/dockerdiscordcontrol/logs/webui_error.log"]

def applicationLogPaths : List String :=
  ["/app/logs/supervisord.log", "/Volumes/appdata/dockerdiscordcontrol/logs/supervisord.log"]

def containerLogPaths : List String :=
  ["/app/logs/supervisord.log", "/var/log/supervisor/supervisord.log"]

def log_paths : List (String × List String) :=
  [("bot", botLogPaths), ("discord", discordLogPaths), ("webui", webuiLogPaths),
   ("application", applicationLogPaths), ("container", containerLogPaths)]

/-- `_read_log_file` (lines 471-486): existence check, readlines, then the
last max_lines lines joined back together (''.join keeps the newlines that
readlines leaves on each line).  A read error returns None. -/
def read_log_file (env : Env) (file_path : String) (max_lines : Nat) :
    Option String × List Event :=
  if env.fsExists file_path then
    match env.fsRead file_path with
    | none => (none, [Event.fsRead file_path])
    | some lines =>
      let recent_lines :=
        if lines.length > max_lines then pySliceLast lines max_lines else lines
      (some (String.join recent_lines), [Event.fsRead file_path])
  else (none, [])

/-- The repeated loop shape `for log_path in paths: if exists: read;
if file_content and file_content.strip(): return file_content`
(lines 112-117, 365-370, 383-388, 401-406, 419-424). -/
def tryFileList (env : Env) (paths : List String) (max_lines : Nat) :
    Option String × List Event :=
  match paths with
  | [] => (none, [])
  | p :: rest =>
    if env.fsExists p then
      match read_log_file env p max_lines with
      | (some c, ev) =>
        if pyStrip c = "" then
          match tryFileList env rest max_lines with
          | (r, evs) => (r, ev ++ evs)
        else (some c, ev)
      | (none, ev) =>
        match tryFileList env rest max_lines with
        | (r, evs) => (r, ev ++ evs)
    else tryFileList env rest max_lines

/-- Inner loop of the last-resort fallback (lines 149-155 / 173-178): first
readable non-empty path of one category, tagged with the category name.
`tag_suffix` is "" at line 155 and " - Docker API unavailable" at line 178. -/
def tryPathsTagged (env : Env) (ty : String) (paths : List String) (max_lines : Nat)
    (tag_suffix : String) : Option String × List Event :=
  match paths with
  | [] => (none, [])
  | p :: rest =>
    if env.fsExists p then
      match read_log_file env p max_lines with
      | (some c, ev) =>
        if pyStrip c = "" then
          match tryPathsTagged env ty rest max_lines tag_suffix with
          | (r, evs) => (r, ev ++ evs)
        else
          (some ("[Reading from " ++ ty ++ " log file" ++ tag_suffix ++ "]\n\n" ++ c), ev)
      | (none, ev) =>
        match tryPathsTagged env ty rest max_lines tag_suffix with
        | (r, evs) => (r, ev ++ evs)
    else tryPathsTagged env ty rest max_lines tag_suffix

/-- Outer loop of the last-resort fallback: all categories of self.log_paths. -/
def tryAllPaths (env : Env) (items : List (String × List String)) (max_lines : Nat)
    (tag_suffix : String) : Option String × List Event :=
  match items with
  | [] => (none, [])
  | (ty, paths) :: rest =>
    match tryPathsTagged env ty paths max_lines tag_suffix with
    | (some c, ev) => (some c, ev)
    | (none, ev) =>
      match tryAllPaths env rest max_lines tag_suffix with
      | (r, evs) => (r, ev ++ evs)

/-- `_get_container_logs_sync` (lines 292-308): returns the decoded logs, and
None for NotFound, APIError and every other exception (`except Exception`). -/
def engine_sync_content (env : Env) (container_name : String) (tail : Nat) :
    Option String :=
  match env.engineSync container_name tail with
  | .logs s => some s
  | .notFound => none
  | .apiError => none
  | .exn _ => none

/-- `_get_container_logs_service_first` (lines 345-360) together with
`_get_docker_client_async` and `_fetch_container_logs_async`: None when no
client is available or the container is not found; an APIError becomes a
RuntimeError (line 339) which is caught at line 357; any other raised class
not in (AttributeError, TypeError, RuntimeError) escapes. -/
def get_container_logs_service_first (env : Env) (container_name : String) (tail : Nat) :
    Except PyExn (Option String) × List Event :=
  if env.clientAvailable then
    (match env.engineAsync container_name tail with
     | .logs s => .ok (some s)
     | .notFound => .ok none
     | .apiError => .ok none
     | .exn e => if catchesServiceFirst e then .ok none else .error e,
     [Event.engineAsyncQuery container_name tail])
  else (.ok none, [])

/-- Lines 123-145 of `get_container_logs`: the async fallback once the sync
path returned None.  With a running event loop the coroutine result (or its
exception) is surfaced through `executor.submit(...).result()`; without one,
`asyncio.run` is wrapped in `except Exception` (line 144), so a raise leaves
logs_content as None. -/
def docker_api_fallback (env : Env) (container_name : String) (tail : Nat) :
    Except PyExn (Option String) × List Event :=
  if env.hasEventLoop then
    get_container_logs_service_first env container_name tail
  else
    match get_container_logs_service_first env container_name tail with
    | (.error _, evs) => (.ok none, evs)
    | (r, evs) => (r, evs)

/-- Step 2 of `get_container_logs` (lines 109-117): own-container file read. -/
def own_container_file_step (env : Env) (req : ContainerLogRequest) :
    Option String × List Event :=
  if req.container_name = defaultContainer env then
    tryFileList env containerLogPaths req.max_lines
  else (none, [])

/-- `get_container_logs` (lines 90-184). -/
def get_container_logs (env : Env) (req : ContainerLogRequest) :
    Except PyExn LogResult × List Event :=
  if validate_container_name env req.container_name = false then
    (.ok { success := false, error := some "Invalid container name", status_code := 400 }, [])
  else
    match own_container_file_step env req with
    | (some c, ev2) => (.ok { success := true, content := some c }, ev2)
    | (none, ev2) =>
      let ev3 := ev2 ++ [Event.engineSyncQuery req.container_name req.max_lines]
      match engine_sync_content env req.container_name req.max_lines with
      | some s => (.ok { success := true, content := some s }, ev3)
      | none =>
        match docker_api_fallback env req.container_name req.max_lines with
        | (.ok (some s), evA) => (.ok { success := true, content := some s }, ev3 ++ evA)
        | (.ok none, evA) =>
          (match tryAllPaths env log_paths req.max_lines "" with
           | (some c, evF) => (.ok { success := true, content := some c }, ev3 ++ evA ++ evF)
           | (none, evF) =>
             (.ok { success := false,
                    error := some ("Container \x27" ++ req.container_name ++
                      "\x27 not found and no log files available"),
                    status_code := 404 }, ev3 ++ evA ++ evF))
        | (.error e, evA) =>
          if catchesContainerTop e then
            (match tryAllPaths env log_paths req.max_lines " - Docker API unavailable" with
             | (some c, evF) => (.ok { success := true, content := some c }, ev3 ++ evA ++ evF)
             | (none, evF) =>
               (.ok { success := false, error := some "An unexpected error occurred",
                      status_code := 500 }, ev3 ++ evA ++ evF))
          else (.error e, ev3 ++ evA)

/-- Lines 437-450 of `_get_filtered_container_logs`: sync engine read of
max_lines * 2 from the default container, then the async fallback.  With a
running event loop, line 444 wraps the coroutine in a Task via
`loop.create_task` and line 445 hands that Task to
`asyncio.run_coroutine_threadsafe`, which requires a coroutine and raises
TypeError('A coroutine object is required') synchronously, before any
awaiting: `logs_str` is never assigned from the coroutine, whose result or
exception never surfaces in this call (the Task is left scheduled on the
blocked loop).  The TypeError passes the inner `except RuntimeError` at line
446 and is what this step delivers to the enclosing try.  Without a running
loop, `asyncio.run` is used and `except Exception: pass` (line 449) swallows
every failure, leaving `logs_str` as None. -/
def filtered_logs_source (env : Env) (max_lines : Nat) :
    Except PyExn (Option String) × List Event :=
  let name := defaultContainer env
  let ev1 := [Event.engineSyncQuery name (max_lines * 2)]
  match engine_sync_content env name (max_lines * 2) with
  | some s => (.ok (some s), ev1)
  | none =>
    if env.hasEventLoop then
      (.error .typeError, ev1)
    else
      match get_container_logs_service_first env name (max_lines * 2) with
      | (.error _, ev) => (.ok none, ev1 ++ ev)
      | (r, ev) => (r, ev1 ++ ev)

/-- Line 458: `any(pattern in line.lower() for pattern in [p.lower() for p in
filter_patterns])`. -/
def matchesAny (filter_patterns : List String) (line : String) : Bool :=
  (filter_patterns.map pyLower).any (fun p => strIn p (pyLower line))

/-- `_get_filtered_container_logs` (lines 434-469). -/
def get_filtered_container_logs (env : Env) (max_lines : Nat)
    (filter_patterns : List String) (no_logs_message : String) :
    Except PyExn LogResult × List Event :=
  match filtered_logs_source env max_lines with
  | (.error e, evs) =>
    if catchesFilteredInner e then
      (.ok { success := true, content := some no_logs_message }, evs)
    else (.error e, evs)
  | (.ok none, evs) => (.ok { success := true, content := some no_logs_message }, evs)
  | (.ok (some s), evs) =>
    let filtered_lines := (pySplitNl s).filter (matchesAny filter_patterns)
    let filtered_logs :=
      if filtered_lines.isEmpty then no_logs_message
      else pyJoinNl (pySliceLast filtered_lines max_lines)
    (.ok { success := true, content := some filtered_logs }, evs)

def bot_filter_patterns : List String :=
  ["bot.py", "cog", "discord.py", "discord bot", "command", "slash", "cache",
   "container", "update"]

def discord_filter_patterns : List String :=
  ["discord", "guild", "channel", "member", "message", "voice", "websocket"]

def webui_filter_patterns : List String :=
  ["flask", "Flask", "gunicorn", "Gunicorn", "GET /", "POST /", "HTTP",
   "127.0.0.1", "0.0.0.0:5000", "werkzeug", "jinja2"]

def application_filter_patterns : List String :=
  ["ERROR", "WARNING", "INFO", "DEBUG", "Starting", "Stopping", "Initializing",
   "Config", "Database", "Scheduler"]

/-- `_get_bot_logs` (lines 362-378). -/
def get_bot_logs (env : Env) (max_lines : Nat) : Except PyExn LogResult × List Event :=
  match tryFileList env botLogPaths max_lines with
  | (some c, ev) => (.ok { success := true, content := some c }, ev)
  | (none, ev) =>
    match get_filtered_container_logs env max_lines bot_filter_patterns "No bot logs found" with
    | (r, evs) => (r, ev ++ evs)

/-- `_get_discord_logs` (lines 380-396). -/
def get_discord_logs (env : Env) (max_lines : Nat) : Except PyExn LogResult × List Event :=
  match tryFileList env discordLogPaths max_lines with
  | (some c, ev) => (.ok { success := true, content := some c }, ev)
  | (none, ev) =>
    match get_filtered_container_logs env max_lines discord_filter_patterns
        "No Discord logs found" with
    | (r, evs) => (r, ev ++ evs)

/-- `_get_webui_logs` (lines 398-414). -/
def get_webui_logs (env : Env) (max_lines : Nat) : Except PyExn LogResult × List Event :=
  match tryFileList env webuiLogPaths max_lines with
  | (some c, ev) => (.ok { success := true, content := some c }, ev)
  | (none, ev) =>
    match get_filtered_container_logs env max_lines webui_filter_patterns
        "No Web UI logs found" with
    | (r, evs) => (r, ev ++ evs)

/-- `_get_application_logs` (lines 416-432). -/
def get_application_logs (env : Env) (max_lines : Nat) : Except PyExn LogResult × List Event :=
  match tryFileList env applicationLogPaths max_lines with
  | (some c, ev) => (.ok { success := true, content := some c }, ev)
  | (none, ev) =>
    match get_filtered_container_logs env max_lines application_filter_patterns
        "No application logs found" with
    | (r, evs) => (r, ev ++ evs)

/-- `get_filtered_logs` (lines 186-219). -/
def get_filtered_logs (env : Env) (req : FilteredLogRequest) :
    Except PyExn LogResult × List Event :=
  let body :=
    match req.log_type with
    | .bot => get_bot_logs env req.max_lines
    | .discord => get_discord_logs env req.max_lines
    | .webui => get_webui_logs env req.max_lines
    | .application => get_application_logs env req.max_lines
    | t =>
      (.ok { success := false, error := some ("Unsupported log type: " ++ t.pyStr),
             status_code := 400 }, [])
  match body with
  | (.error e, evs) =>
    if catchesFilteredTop e then
      (.ok { success := false,
             error := some ("Error fetching " ++ req.log_type.value ++ " logs"),
             status_code := 500 }, evs)
    else (.error e, evs)
  | (r, evs) => (r, evs)

/-- `clear_logs` (lines 246-276): no I/O, no mutation; the except-clause at
line 269 is unreachable because `request.log_type` is a string, so
`.capitalize()` and the f-string cannot raise. -/
def clear_logs (req : ClearLogRequest) : LogResult :=
  { success := true,
    data := some { success := true,
                   message := pyCapitalize req.log_type ++
                     " logs cleared (Note: Docker container logs persist until container restart)" } }

/- ------------------------------------------------------------------ -/
/- Helper lemmas -/
/- ------------------------------------------------------------------ -/

theorem prod_fst_eta {α β : Type} (p : α × β) (a : α) (h : p.1 = a) : p = (a, p.2) := by
  cases p
  subst h
  rfl

theorem strToList_append (a b : String) : (a ++ b).toList = a.toList ++ b.toList := rfl

def exceptIsOk {ε α : Type} : Except ε α → Bool
  | .ok _ => true
  | .error _ => false

theorem pyStrip_empty_all_space {s : String} (h : pyStrip s = "") :
    ∀ c ∈ s.toList, isPySpace c = true := by
  intro c hc
  have hX : ((s.toList.dropWhile isPySpace).reverse.dropWhile isPySpace).reverse = [] :=
    congrArg String.data h
  have h2 : (s.toList.dropWhile isPySpace).reverse.dropWhile isPySpace = [] :=
    List.reverse_eq_nil_iff.mp hX
  have h3 := List.dropWhile_eq_nil_iff.mp h2
  have h4 : ∀ x ∈ s.toList.dropWhile isPySpace, isPySpace x = true := by
    intro x hx
    exact h3 x (by simpa using hx)
  have h5 := List.takeWhile_append_dropWhile isPySpace s.toList
  rw [← h5] at hc
  rcases List.mem_append.mp hc with h6 | h6
  · exact List.mem_takeWhile_imp h6
  · exact h4 c h6

theorem pyStrip_ne_empty {s : String} {c : Char} (hc : c ∈ s.toList)
    (hn : isPySpace c = false) : pyStrip s ≠ "" := by
  intro h
  have := pyStrip_empty_all_space h c hc
  rw [hn] at this
  cases this

theorem toLower_of_space {c : Char} (h : isPySpace c = true) : c.toLower = c := by
  unfold isPySpace at h
  simp only [Bool.or_eq_true, decide_eq_true_eq] at h
  rcases h with ((((h | h) | h) | h) | h) | h <;> subst h <;> decide

theorem strIn_subset {p s : String} (h : strIn p s = true) :
    ∀ c ∈ p.toList, c ∈ s.toList := by
  suffices aux : ∀ l : List Char, strInAux p.toList l = true → ∀ c ∈ p.toList, c ∈ l from
    aux s.toList h
  intro l
  induction l with
  | nil =>
    intro h0 c hc
    simp only [strInAux, decide_eq_true_eq] at h0
    rw [h0] at hc
    cases hc
  | cons a rest ih =>
    intro h0 c hc
    unfold strInAux at h0
    simp only [Bool.or_eq_true] at h0
    rcases h0 with h1 | h2
    · exact (List.isPrefixOf_iff_prefix.mp h1).subset hc
    · exact List.mem_cons_of_mem a (ih h2 c hc)

theorem matched_line_has_nonspace {pats : List String} {line : String}
    (hp : ∀ p ∈ pats, ∃ ch ∈ (pyLower p).toList, isPySpace ch = false)
    (hm : matchesAny pats line = true) :
    ∃ ch ∈ line.toList, isPySpace ch = false := by
  unfold matchesAny at hm
  rcases List.any_eq_true.mp hm with ⟨p1, hp1, hin⟩
  rcases List.mem_map.mp hp1 with ⟨p, hpmem, hpl⟩
  rcases hp p hpmem with ⟨ch, hch, hns⟩
  rw [← hpl] at hin
  have hch2 : ch ∈ (pyLower line).toList := strIn_subset hin ch hch
  have hch3 : ch ∈ line.toList.map Char.toLower := by
    simpa [pyLower] using hch2
  rcases List.mem_map.mp hch3 with ⟨y, hy, hyy⟩
  refine ⟨y, hy, ?_⟩
  by_contra hcon
  have hysp : isPySpace y = true := by
    revert hcon
    cases isPySpace y <;> simp
  have hfix : y.toLower = y := toLower_of_space hysp
  rw [hfix] at hyy
  rw [hyy] at hysp
  rw [hns] at hysp
  cases hysp

theorem mem_pyJoinNl {ls : List String} {l : String} (hl : l ∈ ls) {c : Char}
    (hc : c ∈ l.toList) : c ∈ (pyJoinNl ls).toList := by
  induction ls with
  | nil => cases hl
  | cons a rest ih =>
    cases rest with
    | nil =>
      rcases List.mem_cons.mp hl with h | h
      · subst h
        exact hc
      · cases h
    | cons b rest2 =>
      rcases List.mem_cons.mp hl with h | h
      · subst h
        show c ∈ ((l ++ "\n") ++ pyJoinNl (b :: rest2)).toList
        rw [strToList_append, strToList_append]
        exact List.mem_append_left _ (List.mem_append_left _ hc)
      · show c ∈ ((a ++ "\n") ++ pyJoinNl (b :: rest2)).toList
        rw [strToList_append]
        exact List.mem_append_right _ (ih h)

theorem pySliceLast_ne_nil {α : Type} {xs : List α} (h : xs ≠ []) (n : Nat) :
    pySliceLast xs n ≠ [] := by
  unfold pySliceLast
  split
  · exact h
  · intro hd
    have hlen := congrArg List.length hd
    rw [List.length_drop] at hlen
    simp only [List.length_nil] at hlen
    have hx : 0 < xs.length := List.length_pos.mpr h
    omega

theorem pySliceLast_subset {α : Type} {xs : List α} (n : Nat) :
    ∀ a ∈ pySliceLast xs n, a ∈ xs := by
  intro a ha
  unfold pySliceLast at ha
  split at ha
  · exact ha
  · exact List.mem_of_mem_drop ha

theorem tryFileList_some_strip {env : Env} {paths : List String} {m : Nat} {c : String}
    (h : (tryFileList env paths m).1 = some c) : pyStrip c ≠ "" := by
  induction paths with
  | nil => simp [tryFileList] at h
  | cons p rest ih =>
    unfold tryFileList at h
    split at h
    · split at h
      next c0 ev heq =>
        split at h
        next hstrip =>
          split at h
          next r evs heq2 =>
            apply ih
            rw [heq2]
            exact h
        next hstrip =>
          have hcc : c0 = c := Option.some.inj h
          rw [← hcc]
          exact hstrip
      next ev heq =>
        split at h
        next r evs heq2 =>
          apply ih
          rw [heq2]
          exact h
    · exact ih h

theorem read_log_file_events (env : Env) (p : String) (m : Nat) :
    ∀ e ∈ (read_log_file env p m).2, e.isEngineQuery = false := by
  unfold read_log_file
  split
  · split
    · intro e he
      simp only [List.mem_singleton] at he
      rw [he]
      rfl
    · intro e he
      simp only [List.mem_singleton] at he
      rw [he]
      rfl
  · intro e he
    cases he

theorem tryFileList_events (env : Env) (paths : List String) (m : Nat) :
    ∀ e ∈ (tryFileList env paths m).2, e.isEngineQuery = false := by
  induction paths with
  | nil =>
    intro e he
    simp [tryFileList] at he
  | cons p rest ih =>
    intro e he
    unfold tryFileList at he
    split at he
    · split at he
      next c0 ev heq =>
        split at he
        · split at he
          next r evs heq2 =>
            rcases List.mem_append.mp he with hm | hm
            · have hev : (read_log_file env p m).2 = ev := by rw [heq]
              exact read_log_file_events env p m e (hev.symm ▸ hm)
            · have hev : (tryFileList env rest m).2 = evs := by rw [heq2]
              exact ih e (hev.symm ▸ hm)
        · have hev : (read_log_file env p m).2 = ev := by rw [heq]
          exact read_log_file_events env p m e (hev.symm ▸ he)
      next ev heq =>
        split at he
        next r evs heq2 =>
          rcases List.mem_append.mp he with hm | hm
          · have hev : (read_log_file env p m).2 = ev := by rw [heq]
            exact read_log_file_events env p m e (hev.symm ▸ hm)
          · have hev : (tryFileList env rest m).2 = evs := by rw [heq2]
            exact ih e (hev.symm ▸ hm)
    · exact ih e he

theorem tryPathsTagged_strip {env : Env} {ty : String} {paths : List String} {m : Nat}
    {suf c : String} (h : (tryPathsTagged env ty paths m suf).1 = some c) :
    pyStrip c ≠ "" := by
  induction paths with
  | nil => simp [tryPathsTagged] at h
  | cons p rest ih =>
    unfold tryPathsTagged at h
    split at h
    · split at h
      next c0 ev heq =>
        split at h
        next hstrip =>
          split at h
          next r evs heq2 =>
            apply ih
            rw [heq2]
            exact h
        next hstrip =>
          have hcc := Option.some.inj h
          rw [← hcc]
          have hmem : ('[' : Char) ∈
              ("[Reading from " ++ ty ++ " log file" ++ suf ++ "]\n\n" ++ c0).toList := by
            simp only [strToList_append]
            exact List.mem_append_left _ (List.mem_append_left _ (List.mem_append_left _
              (List.mem_append_left _ (List.mem_append_left _ (by decide)))))
          exact pyStrip_ne_empty hmem (by decide)
      next ev heq =>
        split at h
        next r evs heq2 =>
          apply ih
          rw [heq2]
          exact h
    · exact ih h

theorem tryAllPaths_strip {env : Env} {items : List (String × List String)} {m : Nat}
    {suf c : String} (h : (tryAllPaths env items m suf).1 = some c) :
    pyStrip c ≠ "" := by
  induction items with
  | nil => simp [tryAllPaths] at h
  | cons item rest ih =>
    obtain ⟨ty, paths⟩ := item
    unfold tryAllPaths at h
    split at h
    next c0 ev heq =>
      have hcc := Option.some.inj h
      rw [← hcc]
      exact tryPathsTagged_strip (by rw [heq])
    next ev heq =>
      split at h
      next r evs heq2 =>
        apply ih
        rw [heq2]
        exact h

theorem filtered_container_ok {env : Env} {m : Nat} {pats : List String} {msg : String}
    {r : LogResult} {evs : List Event}
    (hp : ∀ p ∈ pats, ∃ ch ∈ (pyLower p).toList, isPySpace ch = false)
    (hmsg : pyStrip msg ≠ "")
    (h : get_filtered_container_logs env m pats msg = (Except.ok r, evs)) :
    r.success = true ∧ r.content.isSome = true ∧ pyStrip (r.content.getD "") ≠ "" := by
  unfold get_filtered_container_logs at h
  split at h
  next e evs0 heq =>
    split at h
    · have hr : LogResult.mk true (some msg) none none 200 = r :=
        Except.ok.inj (congrArg Prod.fst h)
      subst hr
      exact ⟨rfl, rfl, hmsg⟩
    · exact absurd (congrArg Prod.fst h) (by simp)
  next evs0 heq =>
    have hr : LogResult.mk true (some msg) none none 200 = r :=
      Except.ok.inj (congrArg Prod.fst h)
    subst hr
    exact ⟨rfl, rfl, hmsg⟩
  next s evs0 heq =>
    have hr := Except.ok.inj (congrArg Prod.fst h)
    subst hr
    refine ⟨rfl, rfl, ?_⟩
    show pyStrip (if ((pySplitNl s).filter (matchesAny pats)).isEmpty then msg
      else pyJoinNl (pySliceLast ((pySplitNl s).filter (matchesAny pats)) m)) ≠ ""
    split
    · exact hmsg
    next hne =>
      have hMne : (pySplitNl s).filter (matchesAny pats) ≠ [] := by
        intro hnil
        rw [hnil] at hne
        exact hne rfl
      have hsl := pySliceLast_ne_nil hMne m
      obtain ⟨l0, hl0⟩ := List.exists_mem_of_ne_nil _ hsl
      have hl0M : l0 ∈ (pySplitNl s).filter (matchesAny pats) := pySliceLast_subset m l0 hl0
      have hl0match : matchesAny pats l0 = true := (List.mem_filter.mp hl0M).2
      obtain ⟨y, hy, hyn⟩ := matched_line_has_nonspace hp hl0match
      exact pyStrip_ne_empty (mem_pyJoinNl hl0 hy) hyn

/- ------------------------------------------------------------------ -/
/- Concrete environments used as witnesses and counterexamples -/
/- ------------------------------------------------------------------ -/

/-- A world with no log files, no running containers, no docker client pool,
no event loop, default own-container name, helper import available. -/
def emptyEnv : Env :=
  { fsExists := fun _ => false
    fsRead := fun _ => none
    engineSync := fun _ _ => .notFound
    engineAsync := fun _ _ => .notFound
    clientAvailable := false
    hasEventLoop := false
    ownContainerEnv := none
    helpersImportOk := true }

/-- Same world, but `utils.common_helpers` fails to import, so the fallback
regex at line 290 is in effect. -/
def fallbackEnv : Env :=
  { emptyEnv with helpersImportOk := false }

/-- A world where the engine knows container "web" but its log stream is
empty (a running container that has produced no output). -/
def emptyLogsEnv : Env :=
  { emptyEnv with
    engineSync := fun n _ => if n = "web" then .logs "" else .notFound }

/-- Engine whose full combined stream for "ddc" has 3 lines of which only the
first matches the Discord keywords; `tail=k` returns the last k lines, as the
engine API does. -/
def windowStream : List String := ["discord a", "bb", "cc"]

def windowEnv : Env :=
  { emptyEnv with
    engineSync := fun n k =>
      if n = "ddc" then .logs (pyJoinNl (pySliceLast windowStream k)) else .notFound }

/-- Engine answering every sync query with a docker.errors.APIError. -/
def apiErrorEnv : Env :=
  { emptyEnv with engineSync := fun _ _ => .apiError }

/-- Event loop running, client pool available, and both engine paths raising
an OSError (e.g. requests.exceptions.ConnectionError, a transport error). -/
def osErrorEnv : Env :=
  { emptyEnv with
    hasEventLoop := true
    clientAvailable := true
    engineSync := fun _ _ => .exn .osError
    engineAsync := fun _ _ => .exn .osError }

/-- Event loop running, client pool available, sync path raising OSError and
the async fetch — were it ever awaited — raising ImportError (`import docker`
failing at line 324).  In the filtered fallback the async outcome never
surfaces: the run_coroutine_threadsafe TypeError arrives first. -/
def importErrorEnv : Env :=
  { emptyEnv with
    hasEventLoop := true
    clientAvailable := true
    engineSync := fun _ _ => .exn .osError
    engineAsync := fun _ _ => .exn .importError }

/-- World in which /app/logs/supervisord.log exists and holds one line. -/
def ownFileEnv : Env :=
  { emptyEnv with
    fsExists := fun p => p = "/app/logs/supervisord.log"
    fsRead := fun p =>
      if p = "/app/logs/supervisord.log" then some ["hello world\n"] else none }

/-- Engine giving "ddc" a two-line window in which only the first line
matches the Discord keywords. -/
def smallWindowEnv : Env :=
  { emptyEnv with
    engineSync := fun n k =>
      if n = "ddc" then .logs (pyJoinNl (pySliceLast ["discord a", "bb"] k)) else .notFound }

/- ------------------------------------------------------------------ -/
/- C8 -/
/- ------------------------------------------------------------------ -/

/-- C8: for every ClearLogRequest, regardless of log_type, clear_logs performs
no destructive action (it touches neither the filesystem nor the engine: it is
a pure function of the request) and returns a Success result whose message
contains "persist until container restart". -/
theorem clear_logs_always_success_with_persist_message (req : ClearLogRequest) :
    ∃ pre post,
      clear_logs req =
        { success := true,
          data := some { success := true,
                         message := pre ++ "persist until container restart" ++ post } } := by
  refine ⟨pyCapitalize req.log_type ++ " logs cleared (Note: Docker container logs ", ")", ?_⟩
  unfold clear_logs
  have hmsg : pyCapitalize req.log_type ++ " logs cleared (Note: Docker container logs " ++
      "persist until container restart" ++ ")" =
      pyCapitalize req.log_type ++
      " logs cleared (Note: Docker container logs persist until container restart)" := by
    rw [String.append_assoc, String.append_assoc]
    rfl
  rw [hmsg]

/- ------------------------------------------------------------------ -/
/- C10 -/
/- ------------------------------------------------------------------ -/

/-- C10: for every FilteredLogRequest whose log_type is CONTAINER or ACTION,
get_filtered_logs returns a failure with status 400 and an error naming the
unsupported log type, with no file read and no engine query (empty trace). -/
theorem unsupported_log_type_400 (env : Env) (req : FilteredLogRequest)
    (h : req.log_type = LogType.container ∨ req.log_type = LogType.action) :
    get_filtered_logs env req =
      (.ok { success := false,
             error := some ("Unsupported log type: " ++ req.log_type.pyStr),
             status_code := 400 }, []) := by
  obtain ⟨t, m⟩ := req
  rcases h with h | h <;> (cases h; rfl)

/-- Witness: the CONTAINER type concretely produces the 400 result. -/
theorem unsupported_log_type_400_witness :
    get_filtered_logs emptyEnv { log_type := LogType.container, max_lines := 500 } =
      (.ok { success := false,
             error := some "Unsupported log type: LogType.CONTAINER",
             status_code := 400 }, []) :=
  unsupported_log_type_400 emptyEnv { log_type := LogType.container, max_lines := 500 }
    (Or.inl rfl)

/- ------------------------------------------------------------------ -/
/- C9 -/
/- ------------------------------------------------------------------ -/

/-- C9: get_filtered_logs is a pure function of the request and of the backing
state (files, engine, client pool, event loop, own-container name); it does
not even read the remaining component of the world (the helper-import flag),
so two calls against identical backing state return identical results. -/
theorem get_filtered_logs_deterministic (env : Env) (b : Bool) (req : FilteredLogRequest) :
    get_filtered_logs { env with helpersImportOk := b } req = get_filtered_logs env req := by
  cases env
  rfl

/- ------------------------------------------------------------------ -/
/- C1 -/
/- ------------------------------------------------------------------ -/

/-- C1 (failing input for the code bug): under the fallback regex at line 290
(helpers import unavailable), the name "abc\n" contains a newline — a
character outside [A-Za-z0-9_.-] — yet bool(re.match(r'^[a-zA-Z0-9_.-]+$', s))
is True because `$` also matches just before a trailing newline; the request
therefore reaches the container engine (an engine query appears in the trace)
and yields 404 instead of the required "Invalid container name"/400 result. -/
theorem invalid_name_trailing_newline_bug :
    allowedChar '\n' = false ∧
    '\n' ∈ "abc\n".toList ∧
    validate_container_name fallbackEnv "abc\n" = true ∧
    get_container_logs fallbackEnv { container_name := "abc\n", max_lines := 500 } =
      (.ok { success := false,
             error := some "Container \x27abc\n\x27 not found and no log files available",
             status_code := 404 },
       [Event.engineSyncQuery "abc\n" 500]) := by
  refine ⟨rfl, ?_, rfl, rfl⟩
  decide

/- ------------------------------------------------------------------ -/
/- C3 counterexample -/
/- ------------------------------------------------------------------ -/

/-- C3 counterexample: a running container with an empty log stream makes
get_container_logs return success = true with content "" (empty after
trimming); the engine source is returned unguarded rather than skipped. -/
theorem success_with_empty_content_cex :
    get_container_logs emptyLogsEnv { container_name := "web", max_lines := 500 } =
      (.ok { success := true, content := some "" }, [Event.engineSyncQuery "web" 500]) ∧
    pyStrip "" = "" :=
  ⟨rfl, rfl⟩

/- ------------------------------------------------------------------ -/
/- C4 counterexample -/
/- ------------------------------------------------------------------ -/

/-- C4 counterexample: the full stream has N = 3 lines of which exactly K = 1
matches the Discord keywords, so the claim demands the last min(1, 1) = 1
matching line ("discord a"); but the engine is only asked for the last
2·maxLines = 2 lines ("bb\ncc"), and no line of that window matches, so the
code returns the placeholder message instead. -/
theorem window_filter_cex :
    (windowStream.filter (matchesAny discord_filter_patterns)).length = 1 ∧
    pyJoinNl (pySliceLast (windowStream.filter (matchesAny discord_filter_patterns)) 1) =
      "discord a" ∧
    windowEnv.engineSync "ddc" 2 = .logs "bb\ncc" ∧
    get_filtered_logs windowEnv { log_type := LogType.discord, max_lines := 1 } =
      (.ok { success := true, content := some "No Discord logs found" },
       [Event.engineSyncQuery "ddc" 2]) ∧
    ("No Discord logs found" : String) ≠ "discord a" := by
  refine ⟨rfl, rfl, rfl, rfl, by decide⟩

/- ------------------------------------------------------------------ -/
/- C5 counterexample -/
/- ------------------------------------------------------------------ -/

/-- C5 counterexample: the engine answers "web" with an APIError (a failure
class the claim maps to 500), yet with the chain exhausted the code returns
404 — the sync path collapses NotFound, APIError and every other exception
into the same None and the final failure does not distinguish them. -/
theorem api_error_gives_404_cex :
    apiErrorEnv.engineSync "web" 500 = FetchOutcome.apiError ∧
    get_container_logs apiErrorEnv { container_name := "web", max_lines := 500 } =
      (.ok { success := false,
             error := some "Container \x27web\x27 not found and no log files available",
             status_code := 404 },
       [Event.engineSyncQuery "web" 500]) ∧
    (404 : Nat) ≠ 500 :=
  ⟨rfl, rfl, by decide⟩

/- ------------------------------------------------------------------ -/
/- C6 counterexample -/
/- ------------------------------------------------------------------ -/

/-- C6 counterexample: with a running event loop, when the async engine fetch
raises an OSError (a transport error, e.g. requests ConnectionError), the
exception escapes — it is outside the classes caught at lines 340, 357 and
168 — so get_container_logs raises to its caller instead of returning a
LogResult. -/
theorem get_container_logs_raises_cex :
    get_container_logs osErrorEnv { container_name := "web", max_lines := 500 } =
      (.error PyExn.osError,
       [Event.engineSyncQuery "web" 500, Event.engineAsyncQuery "web" 500]) ∧
    exceptIsOk
      (get_container_logs osErrorEnv { container_name := "web", max_lines := 500 }).1 = false :=
  ⟨rfl, rfl⟩

/- ------------------------------------------------------------------ -/
/- C2 -/
/- ------------------------------------------------------------------ -/

/-- C2: for every valid request naming the service's own container, if the
loop over the configured 'container' log paths finds a file whose tail read is
non-whitespace (tryFileList is that loop: first existing, readable path whose
last max_lines lines strip to non-empty), get_container_logs returns Success
with exactly that tail content, and the trace shows file reads only — the
container engine is never queried. -/
theorem own_container_file_first (env : Env) (req : ContainerLogRequest) (c : String)
    (hv : validate_container_name env req.container_name = true)
    (hd : req.container_name = defaultContainer env)
    (hc : (tryFileList env containerLogPaths req.max_lines).1 = some c) :
    get_container_logs env req =
      (.ok { success := true, content := some c },
       (tryFileList env containerLogPaths req.max_lines).2) ∧
    ∀ e ∈ (tryFileList env containerLogPaths req.max_lines).2, e.isEngineQuery = false := by
  constructor
  · unfold get_container_logs
    rw [hv, if_neg (by decide : ¬ (true = false))]
    have he : own_container_file_step env req =
        (some c, (tryFileList env containerLogPaths req.max_lines).2) := by
      unfold own_container_file_step
      rw [if_pos hd]
      exact prod_fst_eta _ _ hc
    rw [he]
  · exact tryFileList_events env containerLogPaths req.max_lines

/-- Witness: with /app/logs/supervisord.log present and non-empty,
resolving logs for "ddc" succeeds from the file with no engine query. -/
theorem own_container_file_first_witness :
    get_container_logs ownFileEnv { container_name := "ddc", max_lines := 500 } =
      (.ok { success := true, content := some "hello world\n" },
       [Event.fsRead "/app/logs/supervisord.log"]) :=
  (own_container_file_first ownFileEnv { container_name := "ddc", max_lines := 500 }
    "hello world\n" rfl rfl rfl).1

/- ------------------------------------------------------------------ -/
/- C6 amended -/
/- ------------------------------------------------------------------ -/

/-- C6 amended: get_container_logs never raises provided every exception
escaping the async engine step lies in the classes handled at line 168
(ImportError, AttributeError, TypeError, ValueError incl. UnicodeDecodeError,
RuntimeError); every other failure path — validation, file errors, every sync
engine outcome, NotFound/APIError on the async path — is converted to a
LogResult. -/
theorem no_raise_when_escapes_handled (env : Env) (req : ContainerLogRequest)
    (h : ∀ e : PyExn,
      (docker_api_fallback env req.container_name req.max_lines).1 = Except.error e →
      catchesContainerTop e = true) :
    exceptIsOk (get_container_logs env req).1 = true := by
  unfold get_container_logs
  split
  · rfl
  · split
    · rfl
    · split
      · rfl
      · split
        next s evA heq => rfl
        next evA heq =>
          split
          next cF evF heq2 => rfl
          next evF heq2 => rfl
        next e evA heq =>
          have hc := h e (by rw [heq])
          rw [hc, if_pos rfl]
          split
          next cF evF heq2 => rfl
          next evF heq2 => rfl

/-- Witness: in the empty world no exception escapes and the call returns a
LogResult. -/
theorem no_raise_when_escapes_handled_witness :
    exceptIsOk (get_container_logs emptyEnv { container_name := "web", max_lines := 500 }).1
      = true :=
  no_raise_when_escapes_handled emptyEnv { container_name := "web", max_lines := 500 }
    (fun _ he => Except.noConfusion he)

/- ------------------------------------------------------------------ -/
/- C5 amended -/
/- ------------------------------------------------------------------ -/

/-- C5 amended: when the whole fallback chain yields no content, the result is
a 404 Failure whenever the engine log retrieval returned no string — which
covers container-not-found, engine API errors, transport errors and timeouts
alike, since the sync path collapses them all to None — and a 500 Failure
exactly when an exception of a class handled at line 168 escaped the async
engine step and no fallback file had content. -/
theorem chain_exhausted_statuses (env : Env) (req : ContainerLogRequest) :
    (validate_container_name env req.container_name = true →
      (own_container_file_step env req).1 = none →
      engine_sync_content env req.container_name req.max_lines = none →
      (docker_api_fallback env req.container_name req.max_lines).1 = Except.ok none →
      (tryAllPaths env log_paths req.max_lines "").1 = none →
      get_container_logs env req =
        (.ok { success := false,
               error := some ("Container \x27" ++ req.container_name ++
                 "\x27 not found and no log files available"),
               status_code := 404 },
         ((own_container_file_step env req).2 ++
            [Event.engineSyncQuery req.container_name req.max_lines] ++
            (docker_api_fallback env req.container_name req.max_lines).2) ++
          (tryAllPaths env log_paths req.max_lines "").2)) ∧
    (∀ e : PyExn, validate_container_name env req.container_name = true →
      (own_container_file_step env req).1 = none →
      engine_sync_content env req.container_name req.max_lines = none →
      (docker_api_fallback env req.container_name req.max_lines).1 = Except.error e →
      catchesContainerTop e = true →
      (tryAllPaths env log_paths req.max_lines " - Docker API unavailable").1 = none →
      get_container_logs env req =
        (.ok { success := false, error := some "An unexpected error occurred",
               status_code := 500 },
         ((own_container_file_step env req).2 ++
            [Event.engineSyncQuery req.container_name req.max_lines] ++
            (docker_api_fallback env req.container_name req.max_lines).2) ++
          (tryAllPaths env log_paths req.max_lines " - Docker API unavailable").2)) := by
  constructor
  · intro hv h2 hs ha hf
    unfold get_container_logs
    split
    next hcond => exact absurd (hv ▸ hcond) (by decide)
    next hcond =>
      split
      next c ev2 heq =>
        rw [heq] at h2
        simp at h2
      next ev2 heq =>
        split
        next s hseq =>
          rw [hs] at hseq
          simp at hseq
        next hseq =>
          split
          next s evA haeq =>
            rw [haeq] at ha
            simp at ha
          next evA haeq =>
            split
            next cF evF hfeq =>
              rw [hfeq] at hf
              simp at hf
            next evF hfeq =>
              rw [heq, haeq, hfeq]
          next e evA haeq =>
            rw [haeq] at ha
            simp at ha
  · intro e0 hv h2 hs ha hcat hf
    unfold get_container_logs
    split
    next hcond => exact absurd (hv ▸ hcond) (by decide)
    next hcond =>
      split
      next c ev2 heq =>
        rw [heq] at h2
        simp at h2
      next ev2 heq =>
        split
        next s hseq =>
          rw [hs] at hseq
          simp at hseq
        next hseq =>
          split
          next s evA haeq =>
            rw [haeq] at ha
            simp at ha
          next evA haeq =>
            rw [haeq] at ha
            simp at ha
          next e evA haeq =>
            rw [haeq] at ha
            simp only [Except.error.injEq] at ha
            subst ha
            rw [hcat, if_pos rfl]
            split
            next cF evF hfeq =>
              rw [hfeq] at hf
              simp at hf
            next evF hfeq =>
              rw [heq, haeq, hfeq]

/-- Witness: chain exhausted in the empty world: 404 with the engine queried
once. -/
theorem chain_exhausted_statuses_witness :
    get_container_logs emptyEnv { container_name := "web", max_lines := 500 } =
      (.ok { success := false,
             error := some "Container \x27web\x27 not found and no log files available",
             status_code := 404 },
       [Event.engineSyncQuery "web" 500]) :=
  (chain_exhausted_statuses emptyEnv { container_name := "web", max_lines := 500 }).1
    rfl rfl rfl rfl rfl

/- ------------------------------------------------------------------ -/
/- C4 amended -/
/- ------------------------------------------------------------------ -/

/-- C4 amended (restricted to the window the code actually reads): for the
tailed window `s` the engine returns for tail = 2·maxLines, when maxLines ≥ 1
and at least one window line matches the keywords case-insensitively, the
filtered fallback returns exactly the last min(K, maxLines) matching window
lines in their original order (the drop keeps order; its length is the min;
it is a suffix of the matching lines).  On the full stream the claim only
holds when the stream fits in the window (see the counterexample). -/
theorem window_filter_last_min (env : Env) (m : Nat) (pats : List String) (msg : String)
    (s : String)
    (hs : env.engineSync (defaultContainer env) (m * 2) = FetchOutcome.logs s)
    (hm : 1 ≤ m)
    (hM : (pySplitNl s).filter (matchesAny pats) ≠ []) :
    get_filtered_container_logs env m pats msg =
      (.ok { success := true,
             content := some (pyJoinNl (((pySplitNl s).filter (matchesAny pats)).drop
               (((pySplitNl s).filter (matchesAny pats)).length - m))) },
       [Event.engineSyncQuery (defaultContainer env) (m * 2)]) ∧
    (((pySplitNl s).filter (matchesAny pats)).drop
        (((pySplitNl s).filter (matchesAny pats)).length - m)).length =
      min (((pySplitNl s).filter (matchesAny pats)).length) m ∧
    ((pySplitNl s).filter (matchesAny pats)).drop
        (((pySplitNl s).filter (matchesAny pats)).length - m) <:+
      (pySplitNl s).filter (matchesAny pats) := by
  refine ⟨?_, ?_, List.drop_suffix _ _⟩
  · have hsrc : filtered_logs_source env m =
        (.ok (some s), [Event.engineSyncQuery (defaultContainer env) (m * 2)]) := by
      unfold filtered_logs_source
      have hsync : engine_sync_content env (defaultContainer env) (m * 2) = some s := by
        unfold engine_sync_content
        rw [hs]
      dsimp only
      rw [hsync]
    unfold get_filtered_container_logs
    rw [hsrc]
    have hne : ((pySplitNl s).filter (matchesAny pats)).isEmpty = false := by
      cases hg : (pySplitNl s).filter (matchesAny pats) with
      | nil => exact absurd hg hM
      | cons a t => rfl
    have hslice : pySliceLast ((pySplitNl s).filter (matchesAny pats)) m =
        ((pySplitNl s).filter (matchesAny pats)).drop
          (((pySplitNl s).filter (matchesAny pats)).length - m) := by
      unfold pySliceLast
      rw [if_neg (by omega : ¬ m = 0)]
    dsimp only
    rw [hne, if_neg (by decide : ¬ (false = true)), hslice]
  · rw [List.length_drop]
    omega

/-- Witness: with window "discord a\nbb" and maxLines 1, the single matching
window line is returned. -/
theorem window_filter_last_min_witness :
    get_filtered_container_logs smallWindowEnv 1 discord_filter_patterns
      "No Discord logs found" =
      (.ok { success := true, content := some "discord a" },
       [Event.engineSyncQuery "ddc" 2]) :=
  (window_filter_last_min smallWindowEnv 1 discord_filter_patterns "No Discord logs found"
    "discord a\nbb" rfl (by decide) (by decide)).1

/- ------------------------------------------------------------------ -/
/- C7 -/
/- ------------------------------------------------------------------ -/

/-- Whatever exception the container-log step of the filtered fallback
delivers to the enclosing try is the synchronous TypeError raised by
`asyncio.run_coroutine_threadsafe` when handed the Task made at line 444:
the coroutine's own outcome never surfaces, and in the no-event-loop branch
`except Exception: pass` swallows everything. -/
theorem filtered_logs_source_error {env : Env} {m : Nat} {e : PyExn}
    {evs : List Event} (h : filtered_logs_source env m = (Except.error e, evs)) :
    e = PyExn.typeError := by
  unfold filtered_logs_source at h
  dsimp only at h
  split at h
  next s heq => exact absurd (congrArg Prod.fst h) (by simp)
  next heq =>
    split at h
    · have := congrArg Prod.fst h
      simpa using this.symm
    · rcases hg : get_container_logs_service_first env (defaultContainer env) (m * 2)
        with ⟨rg, evg⟩
      rw [hg] at h
      cases rg with
      | error e2 =>
        dsimp only at h
        exact absurd (congrArg Prod.fst h) (by simp)
      | ok v =>
        dsimp only at h
        exact absurd (congrArg Prod.fst h) (by simp)

/-- C7: in the filtered fallback, every failure of the container-log step —
delivered either as no content or as the exception that step raises (with a
running event loop that is the synchronous TypeError from handing a Task to
run_coroutine_threadsafe at line 445, caught by the tuple at line 466; with
no event loop every failure is swallowed at line 449 into no-content) — and
every empty keyword-filter outcome yields a Success whose content is exactly
the fixed placeholder message; no error result is ever surfaced from this
path, and every surfaced Success has non-empty content. -/
theorem filtered_fallback_best_effort (env : Env) (m : Nat) (pats : List String)
    (msg : String)
    (hp : ∀ p ∈ pats, ∃ ch ∈ (pyLower p).toList, isPySpace ch = false)
    (hmsg : pyStrip msg ≠ "") :
    (∀ e evs, filtered_logs_source env m = (Except.error e, evs) →
       get_filtered_container_logs env m pats msg =
         (.ok { success := true, content := some msg }, evs)) ∧
    (∀ evs, filtered_logs_source env m = (Except.ok none, evs) →
       get_filtered_container_logs env m pats msg =
         (.ok { success := true, content := some msg }, evs)) ∧
    (∀ s evs, filtered_logs_source env m = (Except.ok (some s), evs) →
       (pySplitNl s).filter (matchesAny pats) = [] →
       get_filtered_container_logs env m pats msg =
         (.ok { success := true, content := some msg }, evs)) ∧
    exceptIsOk (get_filtered_container_logs env m pats msg).1 = true ∧
    (∀ r evs, get_filtered_container_logs env m pats msg = (Except.ok r, evs) →
       r.success = true ∧ r.content.isSome = true ∧ r.content.getD "" ≠ "") := by
  refine ⟨?_, ?_, ?_, ?_, ?_⟩
  · intro e evs hsrc
    have he : e = PyExn.typeError := filtered_logs_source_error hsrc
    subst he
    unfold get_filtered_container_logs
    split
    next e1 evs1 heq =>
      rw [hsrc] at heq
      have he1 : PyExn.typeError = e1 := by
        have := congrArg Prod.fst heq
        simpa using this
      have hevs : evs = evs1 := congrArg Prod.snd heq
      subst he1
      rw [← hevs]
      rfl
    next evs1 heq =>
      rw [hsrc] at heq
      exact absurd (congrArg Prod.fst heq) (by simp)
    next s1 evs1 heq =>
      rw [hsrc] at heq
      exact absurd (congrArg Prod.fst heq) (by simp)
  · intro evs hsrc
    unfold get_filtered_container_logs
    split
    next e1 evs1 heq =>
      rw [hsrc] at heq
      exact absurd (congrArg Prod.fst heq) (by simp)
    next evs1 heq =>
      rw [hsrc] at heq
      have hevs : evs = evs1 := congrArg Prod.snd heq
      rw [← hevs]
    next s1 evs1 heq =>
      rw [hsrc] at heq
      exact absurd (congrArg Prod.fst heq) (by simp)
  · intro s evs hsrc hflt
    unfold get_filtered_container_logs
    split
    next e1 evs1 heq =>
      rw [hsrc] at heq
      exact absurd (congrArg Prod.fst heq) (by simp)
    next evs1 heq =>
      rw [hsrc] at heq
      exact absurd (congrArg Prod.fst heq) (by simp)
    next s1 evs1 heq =>
      rw [hsrc] at heq
      have hs1 : s = s1 := by
        have := congrArg Prod.fst heq
        simpa using this
      have hevs : evs = evs1 := congrArg Prod.snd heq
      subst hs1
      dsimp only
      rw [hflt, ← hevs]
      rfl
  · unfold get_filtered_container_logs
    split
    next e evs1 heq =>
      have he : e = PyExn.typeError := filtered_logs_source_error heq
      subst he
      rfl
    next evs1 heq => rfl
    next s evs1 heq => rfl
  · intro r evs h
    obtain ⟨h1, h2, h3⟩ := filtered_container_ok hp hmsg h
    refine ⟨h1, h2, ?_⟩
    intro hempty
    rw [hempty] at h3
    exact h3 rfl

/-- Witness: with a running event loop and a failing engine, the step's
TypeError is swallowed and the placeholder Success is returned — the async
ImportError never surfaces. -/
theorem filtered_fallback_best_effort_witness :
    get_filtered_container_logs importErrorEnv 5 discord_filter_patterns
      "No Discord logs found" =
      (.ok { success := true, content := some "No Discord logs found" },
       [Event.engineSyncQuery "ddc" 10]) :=
  (filtered_fallback_best_effort importErrorEnv 5 discord_filter_patterns
    "No Discord logs found" (by decide) (by decide)).1
    PyExn.typeError [Event.engineSyncQuery "ddc" 10] rfl


/- ------------------------------------------------------------------ -/
/- C3 amended -/
/- ------------------------------------------------------------------ -/

/-- The shared shape of the four category getters: file loop first, then the
filtered fallback.  A successful result always carries strip-non-empty
content. -/
theorem category_step_ok {env : Env} {m : Nat} {paths pats : List String} {msg : String}
    {r : LogResult} {evs : List Event}
    (hp : ∀ p ∈ pats, ∃ ch ∈ (pyLower p).toList, isPySpace ch = false)
    (hmsg : pyStrip msg ≠ "")
    (h : (match tryFileList env paths m with
          | (some c, ev) => ((Except.ok { success := true, content := some c } :
              Except PyExn LogResult), ev)
          | (none, ev) =>
            match get_filtered_container_logs env m pats msg with
            | (rr, evs2) => (rr, ev ++ evs2)) = (Except.ok r, evs)) :
    r.success = true ∧ r.content.isSome = true ∧ pyStrip (r.content.getD "") ≠ "" := by
  split at h
  next c ev heq =>
    have hr : LogResult.mk true (some c) none none 200 = r :=
      Except.ok.inj (congrArg Prod.fst h)
    subst hr
    have hc : (tryFileList env paths m).1 = some c := by rw [heq]
    exact ⟨rfl, rfl, tryFileList_some_strip hc⟩
  next ev heq =>
    split at h
    next rr evs2 heq2 =>
      have hrr : rr = Except.ok r := congrArg Prod.fst h
      rw [hrr] at heq2
      exact filtered_container_ok hp hmsg heq2

/-- C3 amended: every Success produced by get_filtered_logs carries content
that is non-empty after trimming (file sources are guarded by the
`file_content.strip()` check, the filtered fallback returns either a fixed
non-empty placeholder or a join of keyword-matching lines); and in
get_container_logs a Success whose content trims to empty can only have come
from the engine source (the trace contains an engine query) — the code
returns engine content unguarded, which is the corrected part of the claim
(see the counterexample). -/
theorem success_content_nonempty :
    (∀ (env : Env) (req : FilteredLogRequest) (r : LogResult) (evs : List Event),
       get_filtered_logs env req = (Except.ok r, evs) → r.success = true →
       r.content.isSome = true ∧ pyStrip (r.content.getD "") ≠ "") ∧
    (∀ (env : Env) (req : ContainerLogRequest) (r : LogResult) (evs : List Event),
       get_container_logs env req = (Except.ok r, evs) → r.success = true →
       pyStrip (r.content.getD "x") = "" → evs.any Event.isEngineQuery = true) := by
  constructor
  · intro env req r evs h hs
    unfold get_filtered_logs at h
    obtain ⟨t, m⟩ := req
    cases t <;> dsimp only at h
    case container =>
      have hr := Except.ok.inj (congrArg Prod.fst h)
      rw [← hr] at hs
      exact Bool.noConfusion hs
    case action =>
      have hr := Except.ok.inj (congrArg Prod.fst h)
      rw [← hr] at hs
      exact Bool.noConfusion hs
    case bot =>
      rcases hb : get_bot_logs env m with ⟨rb, evb⟩
      rw [hb] at h
      cases rb with
      | error e =>
        dsimp only at h
        split at h
        · have hr := Except.ok.inj (congrArg Prod.fst h)
          rw [← hr] at hs
          exact Bool.noConfusion hs
        · exact absurd (congrArg Prod.fst h) (by simp)
      | ok rb0 =>
        dsimp only at h
        have hr : rb0 = r := Except.ok.inj (congrArg Prod.fst h)
        rw [hr] at hb
        unfold get_bot_logs at hb
        exact (category_step_ok (by decide) (by decide) hb).2
    case discord =>
      rcases hb : get_discord_logs env m with ⟨rb, evb⟩
      rw [hb] at h
      cases rb with
      | error e =>
        dsimp only at h
        split at h
        · have hr := Except.ok.inj (congrArg Prod.fst h)
          rw [← hr] at hs
          exact Bool.noConfusion hs
        · exact absurd (congrArg Prod.fst h) (by simp)
      | ok rb0 =>
        dsimp only at h
        have hr : rb0 = r := Except.ok.inj (congrArg Prod.fst h)
        rw [hr] at hb
        unfold get_discord_logs at hb
        exact (category_step_ok (by decide) (by decide) hb).2
    case webui =>
      rcases hb : get_webui_logs env m with ⟨rb, evb⟩
      rw [hb] at h
      cases rb with
      | error e =>
        dsimp only at h
        split at h
        · have hr := Except.ok.inj (congrArg Prod.fst h)
          rw [← hr] at hs
          exact Bool.noConfusion hs
        · exact absurd (congrArg Prod.fst h) (by simp)
      | ok rb0 =>
        dsimp only at h
        have hr : rb0 = r := Except.ok.inj (congrArg Prod.fst h)
        rw [hr] at hb
        unfold get_webui_logs at hb
        exact (category_step_ok (by decide) (by decide) hb).2
    case application =>
      rcases hb : get_application_logs env m with ⟨rb, evb⟩
      rw [hb] at h
      cases rb with
      | error e =>
        dsimp only at h
        split at h
        · have hr := Except.ok.inj (congrArg Prod.fst h)
          rw [← hr] at hs
          exact Bool.noConfusion hs
        · exact absurd (congrArg Prod.fst h) (by simp)
      | ok rb0 =>
        dsimp only at h
        have hr : rb0 = r := Except.ok.inj (congrArg Prod.fst h)
        rw [hr] at hb
        unfold get_application_logs at hb
        exact (category_step_ok (by decide) (by decide) hb).2
  · intro env req r evs h hs hempty
    unfold get_container_logs at h
    split at h
    next hcond =>
      have hr := Except.ok.inj (congrArg Prod.fst h)
      rw [← hr] at hs
      exact Bool.noConfusion hs
    next hcond =>
      split at h
      next c ev2 heq =>
        have hr := Except.ok.inj (congrArg Prod.fst h)
        rw [← hr] at hempty
        unfold own_container_file_step at heq
        split at heq
        · have hc : (tryFileList env containerLogPaths req.max_lines).1 = some c := by
            rw [heq]
          exact absurd hempty (tryFileList_some_strip hc)
        · exact absurd (congrArg Prod.fst heq) (by simp)
      next ev2 heq =>
        dsimp only at h
        split at h
        next s hseq =>
          have hevs : ev2 ++ [Event.engineSyncQuery req.container_name req.max_lines] = evs :=
            congrArg Prod.snd h
          rw [← hevs]
          simp [List.any_append, Event.isEngineQuery]
        next hseq =>
          split at h
          next s evA haeq =>
            have hevs :
                ev2 ++ [Event.engineSyncQuery req.container_name req.max_lines] ++ evA = evs :=
              congrArg Prod.snd h
            rw [← hevs]
            simp [List.any_append, Event.isEngineQuery]
          next evA haeq =>
            split at h
            next cF evF hfeq =>
              have hr := Except.ok.inj (congrArg Prod.fst h)
              rw [← hr] at hempty
              have hc : (tryAllPaths env log_paths req.max_lines "").1 = some cF := by
                rw [hfeq]
              exact absurd hempty (tryAllPaths_strip hc)
            next evF hfeq =>
              have hr := Except.ok.inj (congrArg Prod.fst h)
              rw [← hr] at hs
              exact Bool.noConfusion hs
          next e evA haeq =>
            split at h
            · split at h
              next cF evF hfeq =>
                have hr := Except.ok.inj (congrArg Prod.fst h)
                rw [← hr] at hempty
                have hc : (tryAllPaths env log_paths req.max_lines
                    " - Docker API unavailable").1 = some cF := by
                  rw [hfeq]
                exact absurd hempty (tryAllPaths_strip hc)
              next evF hfeq =>
                have hr := Except.ok.inj (congrArg Prod.fst h)
                rw [← hr] at hs
                exact Bool.noConfusion hs
            · exact absurd (congrArg Prod.fst h) (by simp)

/-- Witness: a concrete placeholder Success from get_filtered_logs has
strip-non-empty content. -/
theorem success_content_nonempty_witness :
    get_filtered_logs emptyEnv { log_type := LogType.bot, max_lines := 5 } =
      (.ok { success := true, content := some "No bot logs found" },
       [Event.engineSyncQuery "ddc" 10]) ∧
    pyStrip "No bot logs found" ≠ "" :=
  ⟨rfl,
   (success_content_nonempty.1 emptyEnv { log_type := LogType.bot, max_lines := 5 }
     { success := true, content := some "No bot logs found" }
     [Event.engineSyncQuery "ddc" 10] rfl rfl).2⟩
